import Mathlib

/-!
# Verification of the comfyui-go-sdk client library

Shallow embedding of the core of the `comfyui` Go package: the job-graph
model (`workflow.go`), the tuple-record adapter (`PromptArray` and the
queue-slot decoder from `types.go`), the event decoding and progress
tracking (`websocket.go` and the progress example's tracker), and the
submit / wait operations (`client.go`).

JSON is modelled at the value level: `JValue` mirrors the generic shape
that Go's `encoding/json` produces when decoding into `interface{}`
(null, bool, float64, string, `[]interface{}`, `map[string]interface{}`).
Go maps are modelled as association lists; a Go `nil` map or slice is
modelled as `Option.none` where the code distinguishes nil from empty.
Numbers are rationals (JSON numbers decode to Go float64; all values
relevant here are exactly representable).  Wall-clock fields
(`StartTime`, `LastUpdate`, `EndTime`) are omitted: they are read from
the real-time clock and carry no logic.
-/

namespace ComfyUI

/-- Generic decoded JSON value, mirroring what `encoding/json` produces
for `interface{}` targets. -/
inductive JValue where
  | null : JValue
  | bool (b : Bool) : JValue
  | num (q : ℚ) : JValue
  | str (s : String) : JValue
  | arr (elems : List JValue) : JValue
  | obj (fields : List (String × JValue)) : JValue

/-- Go map indexing `m[k]` on the association-list model: first binding
for the key (bindings are unique for values produced by Go maps). -/
def mapLookup {α : Type} : List (String × α) → String → Option α
  | [], _ => none
  | (k, v) :: rest, key => if k = key then some v else mapLookup rest key

/-- Go's `int(f)` conversion from `float64`: truncation toward zero. -/
def truncRat (q : ℚ) : ℤ :=
  if 0 ≤ q then q.floor else q.ceil

/-- Go map assignment `m[k] = v`: replace the binding if the key is
present, otherwise add it. -/
def mapInsert {α : Type} : List (String × α) → String → α → List (String × α)
  | [], k, v => [(k, v)]
  | (k', v') :: rest, k, v =>
      if k' = k then (k, v) :: rest else (k', v') :: mapInsert rest k v

/-- Go map deletion `delete(m, k)`. -/
def mapErase {α : Type} (m : List (String × α)) (k : String) : List (String × α) :=
  m.filter (fun p => p.1 ≠ k)

/-! ## Job graph model (`types.go` / `workflow.go`) -/

/-- `Node` from `types.go`: a node type-name plus named inputs.  The Go
field `Inputs` is a `map[string]interface{}` that may be nil; `none`
models the nil map. -/
structure Node where
  ClassType : String
  Inputs : Option (List (String × JValue))

/-- `Workflow` from `types.go`: `map[string]Node`, modelled as an
association list from node id to node. -/
abbrev Workflow : Type := List (String × Node)

/-- `Workflow.SetNodeInput` from `workflow.go`: fails when the node id is
absent, otherwise writes one named input (creating the input map when it
was nil). -/
def Workflow.SetNodeInput (w : Workflow) (nodeID inputName : String)
    (value : JValue) : Except String Workflow :=
  match mapLookup w nodeID with
  | none => .error ("node " ++ nodeID ++ " not found")
  | some node =>
      .ok (mapInsert w nodeID
        { node with Inputs := some (mapInsert (node.Inputs.getD []) inputName value) })

/-- `Workflow.GetNodeInput` from `workflow.go`. -/
def Workflow.GetNodeInput (w : Workflow) (nodeID inputName : String) :
    Except String JValue :=
  match mapLookup w nodeID with
  | none => .error ("node " ++ nodeID ++ " not found")
  | some node =>
      match mapLookup (node.Inputs.getD []) inputName with
      | none => .error ("input " ++ inputName ++ " not found in node " ++ nodeID)
      | some v => .ok v

/-- `Workflow.AddNode` from `workflow.go`: map assignment of a fresh
node record. -/
def Workflow.AddNode (w : Workflow) (nodeID classType : String)
    (inputs : Option (List (String × JValue))) : Workflow :=
  mapInsert w nodeID { ClassType := classType, Inputs := inputs }

/-- `Workflow.RemoveNode` from `workflow.go`. -/
def Workflow.RemoveNode (w : Workflow) (nodeID : String) : Workflow :=
  mapErase w nodeID

/-- `Workflow.Validate` from `workflow.go`: empty graph fails, then any
node with an empty `class_type` fails; nothing else is checked. -/
def Workflow.Validate (w : Workflow) : Option String :=
  if w.length = 0 then some "workflow is empty"
  else
    match w.find? (fun p => p.2.ClassType = "") with
    | some p => some ("node " ++ p.1 ++ " has no class_type")
    | none => none

/-- `WorkflowBuilder.ConnectNodes` from `workflow.go`: writes the 2-tuple
edge reference `[sourceNodeID, sourceOutput]` into the target node's
input map; fails when the target node is absent. -/
def Workflow.ConnectNodes (w : Workflow) (sourceNodeID : String)
    (sourceOutput : ℤ) (targetNodeID targetInput : String) :
    Except String Workflow :=
  match mapLookup w targetNodeID with
  | none => .error ("target node " ++ targetNodeID ++ " not found")
  | some node =>
      .ok (mapInsert w targetNodeID
        { node with
          Inputs := some (mapInsert (node.Inputs.getD []) targetInput
            (.arr [.str sourceNodeID, .num (sourceOutput : ℚ)])) })

/-- Graphs reachable through the builder/model operations, starting from
the empty workflow (`NewWorkflowBuilder`; builder `AddNode` and
`AddNodeWithID` both amount to `Workflow.AddNode` with some id). -/
inductive Built : Workflow → Prop where
  | empty : Built []
  | addNode {w} (nodeID classType : String)
      (inputs : Option (List (String × JValue))) :
      Built w → Built (w.AddNode nodeID classType inputs)
  | setNodeInput {w w'} (nodeID inputName : String) (value : JValue) :
      Built w → w.SetNodeInput nodeID inputName value = .ok w' → Built w'
  | connectNodes {w w'} (sourceNodeID : String) (sourceOutput : ℤ)
      (targetNodeID targetInput : String) :
      Built w →
      w.ConnectNodes sourceNodeID sourceOutput targetNodeID targetInput = .ok w' →
      Built w'
  | removeNode {w} (nodeID : String) :
      Built w → Built (w.RemoveNode nodeID)

/-! ## JSON encoding of workflows

`encoding/json` marshals `Node` through its struct tags to
`\x7b"class_type": ..., "inputs": ...\x7d`, a nil input map becoming
`null`, and marshals `Workflow` to an object keyed by node id. -/

/-- JSON encoding of one node (derived `json.Marshal` on `Node`). -/
def Node.marshal (n : Node) : JValue :=
  .obj [("class_type", .str n.ClassType),
        ("inputs", match n.Inputs with
                   | none => .null
                   | some l => .obj l)]

/-- JSON encoding of a workflow (derived `json.Marshal` on `Workflow`). -/
def Workflow.marshal (w : Workflow) : JValue :=
  .obj (w.map (fun p => (p.1, p.2.marshal)))

/-- The graph sub-decoder shared by `PromptArray.UnmarshalJSON`
(`types.go` lines 88-103) and the queue-slot decoder: each field of the
object whose value is itself an object becomes a node, taking
`class_type` when it is a string (else the zero value `""`) and `inputs`
when it is an object (else the nil map); non-object node values are
skipped. -/
def decodeWorkflowObj (fields : List (String × JValue)) : Workflow :=
  fields.filterMap (fun p =>
    match p.2 with
    | .obj nodeFields =>
        some (p.1,
          { ClassType := match mapLookup nodeFields "class_type" with
                         | some (.str s) => s
                         | _ => ""
            Inputs := match mapLookup nodeFields "inputs" with
                      | some (.obj l) => some l
                      | _ => none })
    | _ => none)

/-- Graph sub-decoder on an arbitrary JSON value: only objects decode
(the callers guard with a `map[string]interface{}` type assertion). -/
def decodeWorkflowValue (v : JValue) : Option Workflow :=
  match v with
  | .obj fields => some (decodeWorkflowObj fields)
  | _ => none

/-! ## HistoricalRecord header decoder (`PromptArray`, `types.go`) -/

/-- `PromptArray` from `types.go`: the positional
`[number, prompt_id, workflow, extra_data, outputs_to_execute]` record.
Go zero values: `Number = 0`, `PromptID = ""`, nil maps/slices are
`none`. -/
structure PromptArray where
  Number : ℚ
  PromptID : String
  Workflow : Option Workflow
  ExtraData : Option (List (String × JValue))
  OutputsToExecute : Option (List String)
  rawArray : Option (List JValue)

/-- `json.Unmarshal(data, &arr)` for `arr : []interface{}`: an array
yields its elements, JSON `null` leaves the nil slice (length 0), and
any other value is a type-mismatch failure. -/
def unmarshalToSlice (v : JValue) : Except String (List JValue) :=
  match v with
  | .arr xs => .ok xs
  | .null => .ok []
  | _ => .error "json: cannot unmarshal value into Go value of type []interface"

/-- `PromptArray.UnmarshalJSON` from `types.go`: keeps the raw array,
fails when it has fewer than 3 elements, and otherwise fills each field
best-effort — a mistyped position is silently skipped, leaving the
field's zero value.  Positions 3 and 4 are read only when present. -/
def PromptArray.UnmarshalJSON (data : JValue) : Except String PromptArray :=
  match unmarshalToSlice data with
  | .error e => .error e
  | .ok arr =>
  if arr.length < 3 then
    .error ("prompt array too short: expected at least 3 elements, got "
      ++ toString arr.length)
  else
    .ok
      { Number := match arr.getD 0 .null with
                  | .num q => q
                  | _ => 0
        PromptID := match arr.getD 1 .null with
                    | .str s => s
                    | _ => ""
        Workflow := decodeWorkflowValue (arr.getD 2 .null)
        ExtraData :=
          if arr.length > 3 then
            match arr.getD 3 .null with
            | .obj l => some l
            | _ => none
          else none
        OutputsToExecute :=
          if arr.length > 4 then
            match arr.getD 4 .null with
            | .arr outputs =>
                some (outputs.filterMap (fun o =>
                  match o with
                  | .str s => some s
                  | _ => none))
            | _ => none
          else none
        rawArray := some arr }

/-- JSON encoding of the optional maps in the fresh-marshal path of
`PromptArray.MarshalJSON` (a nil Go map or slice marshals to `null`). -/
def marshalOptObj (o : Option (List (String × JValue))) : JValue :=
  match o with
  | none => .null
  | some l => .obj l

/-- `PromptArray.MarshalJSON` from `types.go`: when the raw array
captured at decode time is present it is replayed verbatim; otherwise a
fresh 5-element array is assembled from the named fields. -/
def PromptArray.MarshalJSON (p : PromptArray) : JValue :=
  match p.rawArray with
  | some arr => .arr arr
  | none =>
      .arr [.num p.Number, .str p.PromptID,
            (match p.Workflow with
             | none => .null
             | some w => w.marshal),
            marshalOptObj p.ExtraData,
            (match p.OutputsToExecute with
             | none => .null
             | some l => .arr (l.map .str))]

/-! ## Queue-slot record decoder

`types.go` in the source snapshot still carries the pre-fix `QueueItem`
declaration (positional struct tags `"0"`..`"4"`), while the shipped
fix — `QueueStatus.UnmarshalJSON` plus `parseQueueItemArray`, recorded
in the repository's queue-API bugfix document — is not present as Go
code in the snapshot.  The decoder below is therefore modelled from the
spec. -/

/-- `QueueItem` from `types.go`: one queue slot
(order, job id, graph, extra-data, outputs-to-execute). -/
structure QueueItem where
  Number : ℤ
  PromptID : String
  Prompt : Option Workflow
  ExtraData : Option (List (String × JValue))
  Outputs : Option (List String)

/-- `QueueStatus` from `types.go`. -/
structure QueueStatus where
  QueueRunning : List QueueItem
  QueuePending : List QueueItem

/-- Modelled from the spec: the field extraction of `parseQueueItemArray`
(the queue-slot record decoder missing from the `types.go` snapshot) —
position 0 order number via `int(float64)`, position 1 job id, position
2 graph through the shared graph sub-decoder, positions 3/4 only when
present; mistyped positions leave zero values. -/
def parseQueueItemCore (arr : List JValue) : QueueItem :=
  { Number := match arr.getD 0 .null with
              | .num q => truncRat q
              | _ => 0
    PromptID := match arr.getD 1 .null with
                | .str s => s
                | _ => ""
    Prompt := decodeWorkflowValue (arr.getD 2 .null)
    ExtraData :=
      if arr.length > 3 then
        match arr.getD 3 .null with
        | .obj l => some l
        | _ => none
      else none
    Outputs :=
      if arr.length > 4 then
        match arr.getD 4 .null with
        | .arr outputs =>
            some (outputs.filterMap (fun o =>
              match o with
              | .str s => some s
              | _ => none))
        | _ => none
      else none }

/-- Modelled from the spec: `parseQueueItemArray` — same minimum-length
check as the history header decoder, then best-effort positional field
extraction. -/
def parseQueueItemArray (arr : List JValue) : Except String QueueItem :=
  if arr.length < 3 then
    .error ("queue item array too short: expected at least 3 elements, got "
      ++ toString arr.length)
  else
    .ok (parseQueueItemCore arr)

/-- Modelled from the spec: the per-list loop of
`QueueStatus.UnmarshalJSON`, aborting at the first malformed slot with a
failure naming the list it occurred in. -/
def parseQueueItemList (label : String) :
    List (List JValue) → Except String (List QueueItem)
  | [] => .ok []
  | arr :: rest =>
      match parseQueueItemArray arr with
      | .error e => .error ("failed to parse " ++ label ++ " queue item: " ++ e)
      | .ok item =>
          match parseQueueItemList label rest with
          | .error e => .error e
          | .ok items => .ok (item :: items)

/-- `json.Unmarshal` into `[][]interface{}`: JSON `null` gives the nil
slice; an array requires every element to itself be an array or `null`. -/
def unmarshalToSliceOfSlices (v : JValue) : Except String (List (List JValue)) :=
  match v with
  | .null => .ok []
  | .arr xs => goList xs
  | _ => .error "json: cannot unmarshal value into Go value of type 2d slice"
where
  goList : List JValue → Except String (List (List JValue))
    | [] => .ok []
    | x :: rest =>
        match unmarshalToSlice x with
        | .error e => .error e
        | .ok l =>
            match goList rest with
            | .error e => .error e
            | .ok ls => .ok (l :: ls)

/-- Modelled from the spec: `QueueStatus.UnmarshalJSON` — decode the two
named top-level lists generically as arrays-of-arrays, then run the
queue-slot record decoder over each list. -/
def QueueStatus.UnmarshalJSON (v : JValue) : Except String QueueStatus :=
  match v with
  | .null => .ok { QueueRunning := [], QueuePending := [] }
  | .obj fields =>
      match unmarshalToSliceOfSlices ((mapLookup fields "queue_running").getD .null),
            unmarshalToSliceOfSlices ((mapLookup fields "queue_pending").getD .null) with
      | .error e, _ => .error e
      | .ok _, .error e => .error e
      | .ok rawRunning, .ok rawPending =>
          match parseQueueItemList "running" rawRunning with
          | .error e => .error e
          | .ok running =>
              match parseQueueItemList "pending" rawPending with
              | .error e => .error e
              | .ok pending => .ok { QueueRunning := running, QueuePending := pending }
  | _ => .error "json: cannot unmarshal value into Go value of type QueueStatus"

/-! ## Submission (`Client.QueuePrompt`, `client.go`) -/

/-- `QueuePromptResponse` from `types.go`. -/
structure QueuePromptResponse where
  PromptID : String
  Number : ℤ
  NodeErrors : List (String × JValue)

/-- The post-transport logic of `Client.QueuePrompt` (`client.go` lines
57-75): given the response decoded from a 2xx reply (`doRequest` already
failed on non-2xx status or transport errors), the call fails when the
`node_errors` map is non-empty — the Go error string embeds the raw map
(`fmt.Errorf("node errors: %v", resp.NodeErrors)`), modelled here by an
error value carrying the map itself — and otherwise returns the response
with the server-assigned job id. -/
def QueuePrompt (resp : QueuePromptResponse) :
    Except (List (String × JValue)) QueuePromptResponse :=
  if resp.NodeErrors.length > 0 then .error resp.NodeErrors
  else .ok resp

/-! ## Event messages and typed extraction (`websocket.go`, `types.go`) -/

/-- `WebSocketMessage` from `types.go`: a kind discriminator plus the
untyped payload map. -/
structure WebSocketMessage where
  type : String
  data : List (String × JValue)

/-- The `MessageType` constants from `types.go`. -/
def MessageTypeStatus : String := "status"

/-- `executing` message kind. -/
def MessageTypeExecuting : String := "executing"

/-- `progress` message kind. -/
def MessageTypeProgress : String := "progress"

/-- `executed` message kind. -/
def MessageTypeExecuted : String := "executed"

/-- `execution_error` message kind. -/
def MessageTypeError : String := "execution_error"

/-- `execution_cached` message kind. -/
def MessageTypeCached : String := "execution_cached"

/-- `ExecutingData` from `types.go`: `Node` is a string pointer, nil when
the payload's `node` is absent or not a string. -/
structure ExecutingData where
  Node : Option String
  PromptID : String

/-- `ProgressData` from `types.go`. -/
structure ProgressData where
  Value : ℤ
  Max : ℤ

/-- `ExecutedData` from `types.go`. -/
structure ExecutedData where
  Node : String
  Output : List (String × JValue)
  PromptID : String

/-- `ErrorData` from `types.go`. -/
structure ErrorData where
  PromptID : String
  NodeID : String
  NodeType : String
  ExceptionType : String
  ExceptionMessage : String
  Traceback : List String

/-- `WebSocketMessage.GetExecutingData` from `websocket.go`: wrong kind
is an error; otherwise each field is set only when the type assertion on
the payload entry holds. -/
def WebSocketMessage.GetExecutingData (msg : WebSocketMessage) :
    Except String ExecutingData :=
  if msg.type ≠ MessageTypeExecuting then .error "not an executing message"
  else
    .ok
      { PromptID := match mapLookup msg.data "prompt_id" with
                    | some (.str s) => s
                    | _ => ""
        Node := match mapLookup msg.data "node" with
                | some (.str s) => some s
                | _ => none }

/-- `WebSocketMessage.GetProgressData` from `websocket.go`: numeric
payload entries arrive as `float64` and are converted with `int(...)`. -/
def WebSocketMessage.GetProgressData (msg : WebSocketMessage) :
    Except String ProgressData :=
  if msg.type ≠ MessageTypeProgress then .error "not a progress message"
  else
    .ok
      { Value := match mapLookup msg.data "value" with
                 | some (.num q) => truncRat q
                 | _ => 0
        Max := match mapLookup msg.data "max" with
               | some (.num q) => truncRat q
               | _ => 0 }

/-- `WebSocketMessage.GetExecutedData` from `websocket.go`. -/
def WebSocketMessage.GetExecutedData (msg : WebSocketMessage) :
    Except String ExecutedData :=
  if msg.type ≠ MessageTypeExecuted then .error "not an executed message"
  else
    .ok
      { Node := match mapLookup msg.data "node" with
                | some (.str s) => s
                | _ => ""
        PromptID := match mapLookup msg.data "prompt_id" with
                    | some (.str s) => s
                    | _ => ""
        Output := match mapLookup msg.data "output" with
                  | some (.obj l) => l
                  | _ => [] }

/-- `WebSocketMessage.GetErrorData` from `websocket.go`. -/
def WebSocketMessage.GetErrorData (msg : WebSocketMessage) :
    Except String ErrorData :=
  if msg.type ≠ MessageTypeError then .error "not an error message"
  else
    .ok
      { PromptID := match mapLookup msg.data "prompt_id" with
                    | some (.str s) => s
                    | _ => ""
        NodeID := match mapLookup msg.data "node_id" with
                  | some (.str s) => s
                  | _ => ""
        NodeType := match mapLookup msg.data "node_type" with
                    | some (.str s) => s
                    | _ => ""
        ExceptionType := match mapLookup msg.data "exception_type" with
                         | some (.str s) => s
                         | _ => ""
        ExceptionMessage := match mapLookup msg.data "exception_message" with
                            | some (.str s) => s
                            | _ => ""
        Traceback := match mapLookup msg.data "traceback" with
                     | some (.arr tb) =>
                         tb.filterMap (fun line =>
                           match line with
                           | .str s => some s
                           | _ => none)
                     | _ => [] }

/-! ## Blocking wait operations

Both loops consume the message channel one message at a time; they are
modelled as functions of the finite list of messages the channel
delivers before closing, the end of the list standing for the channel
closing (which both loops surface as a "websocket closed" error).
Context cancellation and the concurrent error channel are transport
concerns outside the event-sequence model. -/

/-- The per-message completion test of `Client.WaitForCompletion`
(`client.go` lines 350-353): an `executing` message whose `prompt_id`
type-asserts to the tracked id and whose `node` either fails the string
type assertion (absent, `null`, or non-string) or is the empty string. -/
def completesClientWait (promptID : String) (msg : WebSocketMessage) : Bool :=
  msg.type = MessageTypeExecuting
    && (match mapLookup msg.data "prompt_id" with
        | some (.str s) => s = promptID
        | _ => false)
    && (match mapLookup msg.data "node" with
        | some (.str s) => s = ""
        | _ => true)

/-- Outcome of the `Client.WaitForCompletion` message loop. -/
inductive ClientWaitOutcome where
  | completed : ClientWaitOutcome
  | closed : ClientWaitOutcome
  deriving DecidableEq

/-- The message loop of `Client.WaitForCompletion` (`client.go` lines
341-381): every message other than the completion sentinel for the
tracked job id is skipped — in particular `execution_error` messages —
and a closed channel is the "websocket closed unexpectedly" error.  (On
completion the Go code then fetches the history record to assemble the
outputs; that REST follow-up is outside the loop model.) -/
def clientWaitLoop (promptID : String) : List WebSocketMessage → ClientWaitOutcome
  | [] => .closed
  | msg :: rest =>
      if completesClientWait promptID msg then .completed
      else clientWaitLoop promptID rest

/-- Outcome of the `WebSocketClient.WaitForPromptCompletion` loop. -/
inductive WsWaitOutcome where
  | completed : WsWaitOutcome
  | execError (data : List (String × JValue)) : WsWaitOutcome
  | closed : WsWaitOutcome

/-- The message loop of `WebSocketClient.WaitForPromptCompletion`
(`websocket.go` lines 129-156): returns success on the completion
sentinel for the tracked job id, and returns an error carrying the raw
payload (`fmt.Errorf("execution error: %v", msg.Data)`) on an
`execution_error` message whose `prompt_id` matches. -/
def WaitForPromptCompletion (promptID : String) :
    List WebSocketMessage → WsWaitOutcome
  | [] => .closed
  | msg :: rest =>
      if completesClientWait promptID msg then .completed
      else if msg.type = MessageTypeError
          && (match mapLookup msg.data "prompt_id" with
              | some (.str s) => s = promptID
              | _ => false) then
        .execError msg.data
      else WaitForPromptCompletion promptID rest

/-! ## Execution progress tracker (progress example, `main.go`) -/

/-- `ProgressTracker` from the progress example: per-job aggregate of the
event stream.  The wall-clock fields `StartTime` and `LastUpdate` are
omitted (they are read from the real-time clock and carry no logic). -/
structure ProgressTracker where
  PromptID : String
  CurrentNode : String
  TotalNodes : ℤ
  CompletedNodes : ℤ
  CurrentStep : ℤ
  TotalSteps : ℤ
  IsCompleted : Bool
  HasError : Bool
  ErrorMessage : String
  deriving DecidableEq

/-- `NewProgressTracker`: fields start at their Go zero values. -/
def NewProgressTracker (promptID : String) : ProgressTracker :=
  { PromptID := promptID
    CurrentNode := ""
    TotalNodes := 0
    CompletedNodes := 0
    CurrentStep := 0
    TotalSteps := 0
    IsCompleted := false
    HasError := false
    ErrorMessage := "" }

/-- `ProgressTracker.Update`: overwrite step counters and node name. -/
def ProgressTracker.Update (pt : ProgressTracker)
    (currentStep totalSteps : ℤ) (node : String) : ProgressTracker :=
  { pt with CurrentStep := currentStep, TotalSteps := totalSteps,
            CurrentNode := node }

/-- `ProgressTracker.CompleteNode`: bump the completed-node counter. -/
def ProgressTracker.CompleteNode (pt : ProgressTracker) : ProgressTracker :=
  { pt with CompletedNodes := pt.CompletedNodes + 1 }

/-- `ProgressTracker.SetError`. -/
def ProgressTracker.SetError (pt : ProgressTracker) (msg : String) :
    ProgressTracker :=
  { pt with HasError := true, ErrorMessage := msg }

/-- `ProgressTracker.Complete`. -/
def ProgressTracker.Complete (pt : ProgressTracker) : ProgressTracker :=
  { pt with IsCompleted := true }

/-- `ProgressTracker.GetProgressPercentage`: `value/max*100`, and `0`
when the total is zero.  Go computes in `float64`; the model uses exact
rationals. -/
def ProgressTracker.GetProgressPercentage (pt : ProgressTracker) : ℚ :=
  if pt.TotalSteps = 0 then 0
  else (pt.CurrentStep : ℚ) / (pt.TotalSteps : ℚ) * 100

/-- `handleProgressMessage` from the progress example: dispatch one
decoded event to the tracker.  `executing`/`executed`/`execution_error`
events are applied only when their `prompt_id` matches; the `progress`
branch applies the step counters without any job-id check, and no branch
consults the terminal flags. -/
def handleProgressMessage (msg : WebSocketMessage) (tracker : ProgressTracker)
    (promptID : String) : ProgressTracker :=
  if msg.type = MessageTypeProgress then
    match msg.GetProgressData with
    | .ok d => tracker.Update d.Value d.Max tracker.CurrentNode
    | .error _ => tracker
  else if msg.type = MessageTypeExecuting then
    match msg.GetExecutingData with
    | .ok d =>
        if d.PromptID = promptID then
          match d.Node with
          | none => tracker.Complete
          | some node => { tracker with CurrentNode := node }
        else tracker
    | .error _ => tracker
  else if msg.type = MessageTypeExecuted then
    match msg.GetExecutedData with
    | .ok d => if d.PromptID = promptID then tracker.CompleteNode else tracker
    | .error _ => tracker
  else if msg.type = MessageTypeError then
    match msg.GetErrorData with
    | .ok d =>
        if d.PromptID = promptID then
          tracker.SetError (d.ExceptionType ++ ": " ++ d.ExceptionMessage)
        else tracker
    | .error _ => tracker
  else tracker

/-- Feeding a sequence of delivered messages through
`handleProgressMessage`, as the `MonitorProgress` loop does. -/
def runTracker (promptID : String) (tracker : ProgressTracker)
    (msgs : List WebSocketMessage) : ProgressTracker :=
  msgs.foldl (fun t m => handleProgressMessage m t promptID) tracker

/-! ## Shorthands for the per-kind payload projections

These restate the field extractions of the `Get*Data` accessors (the
string / number type assertions with Go zero-value fallbacks) so that
theorem statements can speak about a message's job id, node, and step
counters directly. -/

/-- The `prompt_id` extraction shared by `GetExecutingData`,
`GetExecutedData` and `GetErrorData`. -/
def msgPromptID (m : WebSocketMessage) : String :=
  match mapLookup m.data "prompt_id" with
  | some (.str s) => s
  | _ => ""

/-- The `node` extraction of `GetExecutingData` (nil pointer unless the
payload's `node` is a string). -/
def msgNode (m : WebSocketMessage) : Option String :=
  match mapLookup m.data "node" with
  | some (.str s) => some s
  | _ => none

/-- The `value` extraction of `GetProgressData`. -/
def msgValue (m : WebSocketMessage) : ℤ :=
  match mapLookup m.data "value" with
  | some (.num q) => truncRat q
  | _ => 0

/-- The `max` extraction of `GetProgressData`. -/
def msgMax (m : WebSocketMessage) : ℤ :=
  match mapLookup m.data "max" with
  | some (.num q) => truncRat q
  | _ => 0

/-- The error text `handleProgressMessage` passes to `SetError`
(`fmt.Sprintf("%s: %s", data.ExceptionType, data.ExceptionMessage)`). -/
def msgErrorText (m : WebSocketMessage) : String :=
  (match mapLookup m.data "exception_type" with
   | some (.str s) => s
   | _ => "") ++ ": " ++
  (match mapLookup m.data "exception_message" with
   | some (.str s) => s
   | _ => "")

/-- A concrete `executing` wire event for a job id and node name. -/
def execMsg (pid node : String) : WebSocketMessage :=
  { type := MessageTypeExecuting
    data := [("prompt_id", .str pid), ("node", .str node)] }

/-- A concrete `progress` wire event carrying a job id. -/
def progressMsg (pid : String) (v maxv : ℚ) : WebSocketMessage :=
  { type := MessageTypeProgress
    data := [("prompt_id", .str pid), ("value", .num v), ("max", .num maxv)] }

/-- An event the tracker dispatch leaves the state unchanged by: not a
`progress` event, and carrying a job id other than the tracked one (the
three id-filtered kinds compare `msgPromptID` against the tracked id;
unknown kinds fall through the dispatch). -/
def IgnoredEvent (promptID : String) (m : WebSocketMessage) : Prop :=
  m.type ≠ MessageTypeProgress ∧ msgPromptID m ≠ promptID

instance (promptID : String) (m : WebSocketMessage) :
    Decidable (IgnoredEvent promptID m) :=
  instDecidableAnd

/-- A queue-slot wire tuple of the shape the claim quantifies over: a
positional 5-tuple whose order number, job id, graph, extra-data and
outputs positions carry the expected JSON types. -/
def WellTypedSlotTuple (arr : List JValue) : Prop :=
  arr.length = 5 ∧
  (∃ q, arr.getD 0 .null = .num q) ∧
  (∃ s, arr.getD 1 .null = .str s) ∧
  (∃ f, arr.getD 2 .null = .obj f) ∧
  (∃ e, arr.getD 3 .null = .obj e) ∧
  (∃ o, arr.getD 4 .null = .arr o)

/-! ## Computation lemmas for the tracker dispatch -/

theorem getProgressData_eq (m : WebSocketMessage)
    (h : m.type = MessageTypeProgress) :
    m.GetProgressData = .ok ⟨msgValue m, msgMax m⟩ := by
  unfold WebSocketMessage.GetProgressData
  rw [h]
  rw [if_neg (by decide)]
  rfl

theorem getExecutingData_eq (m : WebSocketMessage)
    (h : m.type = MessageTypeExecuting) :
    m.GetExecutingData = .ok ⟨msgNode m, msgPromptID m⟩ := by
  unfold WebSocketMessage.GetExecutingData
  rw [h]
  rw [if_neg (by decide)]
  rfl

theorem getErrorData_promptID (m : WebSocketMessage)
    (h : m.type = MessageTypeError) :
    ∃ d, m.GetErrorData = .ok d ∧ d.PromptID = msgPromptID m ∧
      d.ExceptionType ++ ": " ++ d.ExceptionMessage = msgErrorText m := by
  unfold WebSocketMessage.GetErrorData
  rw [h]
  rw [if_neg (by decide)]
  exact ⟨_, rfl, rfl, rfl⟩

theorem handle_progress_eq (m : WebSocketMessage) (t : ProgressTracker)
    (pid : String) (h : m.type = MessageTypeProgress) :
    handleProgressMessage m t pid = t.Update (msgValue m) (msgMax m) t.CurrentNode := by
  unfold handleProgressMessage
  rw [getProgressData_eq m h, h]
  rw [if_pos rfl]

theorem handle_executing_eq (m : WebSocketMessage) (t : ProgressTracker)
    (pid : String) (h : m.type = MessageTypeExecuting) :
    handleProgressMessage m t pid =
      if msgPromptID m = pid then
        match msgNode m with
        | none => t.Complete
        | some node => { t with CurrentNode := node }
      else t := by
  unfold handleProgressMessage
  rw [getExecutingData_eq m h, h]
  rw [if_neg (by decide), if_pos rfl]

theorem handle_executed_eq (m : WebSocketMessage) (t : ProgressTracker)
    (pid : String) (h : m.type = MessageTypeExecuted) :
    handleProgressMessage m t pid =
      if msgPromptID m = pid then t.CompleteNode else t := by
  unfold handleProgressMessage
  rw [h]
  rw [if_neg (by decide), if_neg (by decide), if_pos rfl]
  unfold WebSocketMessage.GetExecutedData
  rw [h, if_neg (by decide)]
  rfl

theorem handle_error_eq (m : WebSocketMessage) (t : ProgressTracker)
    (pid : String) (h : m.type = MessageTypeError) :
    handleProgressMessage m t pid =
      if msgPromptID m = pid then t.SetError (msgErrorText m) else t := by
  unfold handleProgressMessage
  rw [h]
  rw [if_neg (by decide), if_neg (by decide), if_neg (by decide), if_pos rfl]
  unfold WebSocketMessage.GetErrorData
  rw [h, if_neg (by decide)]
  rfl

theorem handle_unknown_eq (m : WebSocketMessage) (t : ProgressTracker)
    (pid : String) (h1 : m.type ≠ MessageTypeProgress)
    (h2 : m.type ≠ MessageTypeExecuting) (h3 : m.type ≠ MessageTypeExecuted)
    (h4 : m.type ≠ MessageTypeError) :
    handleProgressMessage m t pid = t := by
  unfold handleProgressMessage
  rw [if_neg h1, if_neg h2, if_neg h3, if_neg h4]

/-! ## C9 — workflow validation -/

/-- C9: `Workflow.Validate` rejects exactly the empty graph and graphs
containing a node with an empty type-name, and its verdict depends only
on the node ids and type-names — every node's input map, and hence any
dangling edge reference in it, is ignored (no referential check). -/
theorem c9_validate_characterization (w : Workflow) :
    (Workflow.Validate w = none ↔ w ≠ [] ∧ ∀ p ∈ w, p.2.ClassType ≠ "") ∧
    Workflow.Validate w =
      Workflow.Validate
        (w.map (fun p => (p.1, { ClassType := p.2.ClassType, Inputs := none }))) := by
  constructor
  · unfold Workflow.Validate
    rcases w with _ | ⟨hd, tl⟩
    · simp
    · rw [if_neg (by simp)]
      cases hf : (hd :: tl).find? (fun p => p.2.ClassType = "") with
      | none =>
          simp only [List.find?_eq_none] at hf
          simp only [decide_eq_true_eq] at hf
          constructor
          · intro _
            exact ⟨by simp, fun p hp => hf p hp⟩
          · intro _
            rfl
      | some p =>
          have hmem := List.mem_of_find?_eq_some hf
          have hcls := List.find?_some hf
          simp only [decide_eq_true_eq] at hcls
          simp only [reduceCtorEq, false_iff]
          intro ⟨_, hall⟩
          exact hall p hmem hcls
  · unfold Workflow.Validate
    rw [List.length_map, List.find?_map]
    rcases hl : w.length with _ | n
    · rw [if_pos rfl, if_pos rfl]
    · rw [if_neg (by simp [hl]), if_neg (by simp [hl])]
      have hpred : ((fun p => decide (p.2.ClassType = "")) ∘
          (fun p => ((p : String × Node).1,
            ({ ClassType := p.2.ClassType, Inputs := none } : Node)))) =
          (fun p => decide (p.2.ClassType = "")) := rfl
      rw [hpred]
      cases w.find? (fun p => p.2.ClassType = "") <;> rfl

/-! ## C7 — completion percentage -/

/-- C7 counterexample: the percentage is not clamped — a tracker whose
current step exceeds its total (value 30 of max 20) reports 150%, so the
claim's "never exceeds 100 for all (value, max) pairs" fails. -/
theorem c7_counterexample :
    ProgressTracker.GetProgressPercentage
      { NewProgressTracker "job" with CurrentStep := 30, TotalSteps := 20 } = 150 ∧
    ¬ ProgressTracker.GetProgressPercentage
      { NewProgressTracker "job" with CurrentStep := 30, TotalSteps := 20 } ≤ 100 := by
  constructor
  · norm_num [ProgressTracker.GetProgressPercentage, NewProgressTracker]
  · norm_num [ProgressTracker.GetProgressPercentage, NewProgressTracker]

/-- C7 amended: the derived completion percentage is 0 whenever the
total-step count is 0, and it never exceeds 100 provided the step pair
satisfies `0 ≤ value ≤ max` (the code performs no clamping, so pairs with
`value > max` exceed 100). -/
theorem c7_percentage_bounds (pt : ProgressTracker) :
    (pt.TotalSteps = 0 → pt.GetProgressPercentage = 0) ∧
    (0 ≤ pt.CurrentStep → pt.CurrentStep ≤ pt.TotalSteps →
      pt.GetProgressPercentage ≤ 100) := by
  constructor
  · intro h
    simp [ProgressTracker.GetProgressPercentage, h]
  · intro h0 h1
    unfold ProgressTracker.GetProgressPercentage
    by_cases h : pt.TotalSteps = 0
    · simp [h]
    · rw [if_neg h]
      have hT : (0 : ℚ) < (pt.TotalSteps : ℚ) := by
        have : 0 < pt.TotalSteps := lt_of_le_of_ne (le_trans h0 h1) (Ne.symm h)
        exact_mod_cast this
      have hc : (pt.CurrentStep : ℚ) ≤ (pt.TotalSteps : ℚ) := by exact_mod_cast h1
      calc (pt.CurrentStep : ℚ) / (pt.TotalSteps : ℚ) * 100
          ≤ 1 * 100 := by
            apply mul_le_mul_of_nonneg_right _ (by norm_num)
            exact (div_le_one hT).mpr hc
        _ = 100 := by norm_num

/-- C7 witness: at total 0 the percentage is 0; at the pair (5, 10) it is
at most 100. -/
theorem c7_percentage_bounds_witness :
    ProgressTracker.GetProgressPercentage (NewProgressTracker "job") = 0 ∧
    ProgressTracker.GetProgressPercentage
      { NewProgressTracker "job" with CurrentStep := 5, TotalSteps := 10 } ≤ 100 :=
  ⟨(c7_percentage_bounds (NewProgressTracker "job")).1 rfl,
   (c7_percentage_bounds
      { NewProgressTracker "job" with CurrentStep := 5, TotalSteps := 10 }).2
     (by decide) (by decide)⟩

/-! ## C8 — submission node-error check -/

/-- C8: after a 2xx submission response decodes, `QueuePrompt` fails
carrying the raw node-error map exactly when `node_errors` is non-empty,
and otherwise returns the response whose `PromptID` is the
server-assigned job id. -/
theorem c8_queue_prompt (resp : QueuePromptResponse) :
    (resp.NodeErrors ≠ [] → QueuePrompt resp = .error resp.NodeErrors) ∧
    (resp.NodeErrors = [] → QueuePrompt resp = .ok resp) := by
  constructor
  · intro h
    have hp : resp.NodeErrors.length > 0 := List.length_pos.mpr h
    simp [QueuePrompt, hp]
  · intro h
    simp [QueuePrompt, h]

/-- C8 witness: the scenario response with job id "abc" and empty
node-error map succeeds, and a response with a non-empty node-error map
fails carrying that map. -/
theorem c8_queue_prompt_witness :
    QueuePrompt { PromptID := "abc", Number := 1, NodeErrors := [] } =
      .ok { PromptID := "abc", Number := 1, NodeErrors := [] } ∧
    QueuePrompt { PromptID := "x", Number := 2,
                  NodeErrors := [("5", .str "bad input")] } =
      .error [("5", .str "bad input")] :=
  ⟨(c8_queue_prompt _).2 rfl,
   (c8_queue_prompt _).1 (List.cons_ne_nil _ _)⟩

/-! ## C10 — header marshal round-trip -/

/-- C10: whenever `PromptArray.UnmarshalJSON` succeeds, re-encoding with
`PromptArray.MarshalJSON` reproduces the received array exactly — the
decoder retains the raw array and the encoder replays it verbatim. -/
theorem c10_marshal_replays_raw (v : JValue) (p : PromptArray)
    (h : PromptArray.UnmarshalJSON v = .ok p) :
    p.MarshalJSON = v := by
  unfold PromptArray.UnmarshalJSON at h
  split at h
  · exact absurd h (by simp)
  · rename_i arr harr
    split at h
    · exact absurd h (by simp)
    · rename_i hlen
      cases h
      cases v with
      | arr xs =>
          simp only [unmarshalToSlice] at harr
          cases harr
          rfl
      | null =>
          simp only [unmarshalToSlice] at harr
          cases harr
          exact absurd (by decide : ([] : List JValue).length < 3) hlen
      | bool b => simp [unmarshalToSlice] at harr
      | num q => simp [unmarshalToSlice] at harr
      | str s => simp [unmarshalToSlice] at harr
      | obj fields => simp [unmarshalToSlice] at harr

/-- C10 witness: a length-3 array (optional positions absent, position 0
holding an unexpected type) decodes and re-encodes to itself. -/
theorem c10_marshal_replays_raw_witness :
    PromptArray.MarshalJSON
      { Number := 1, PromptID := "abc", Workflow := some [],
        ExtraData := none, OutputsToExecute := none,
        rawArray := some [.num 1, .str "abc", .obj []] } =
      .arr [.num 1, .str "abc", .obj []] :=
  c10_marshal_replays_raw (.arr [.num 1, .str "abc", .obj []]) _ rfl

/-! ## C2 — header decoder success and failure conditions -/

/-- Evaluation of the header decoder on any array of length at least 3:
it always succeeds, filling each field best-effort. -/
theorem unmarshal_ok_of_len (xs : List JValue) (h3 : 3 ≤ xs.length) :
    PromptArray.UnmarshalJSON (.arr xs) = .ok
      { Number := match xs.getD 0 .null with
                  | .num q => q
                  | _ => 0
        PromptID := match xs.getD 1 .null with
                    | .str s => s
                    | _ => ""
        Workflow := decodeWorkflowValue (xs.getD 2 .null)
        ExtraData :=
          if xs.length > 3 then
            match xs.getD 3 .null with
            | .obj l => some l
            | _ => none
          else none
        OutputsToExecute :=
          if xs.length > 4 then
            match xs.getD 4 .null with
            | .arr outputs =>
                some (outputs.filterMap (fun o =>
                  match o with
                  | .str s => some s
                  | _ => none))
            | _ => none
          else none
        rawArray := some xs } := by
  unfold PromptArray.UnmarshalJSON
  simp only [unmarshalToSlice]
  rw [if_neg (by omega)]

/-- C2 counterexample: the decoder does not fail on mistyped positions —
`["x", 1, \x7b\x7d]` has a non-numeric position 0 and a non-string
position 1, yet decoding succeeds, silently leaving the zero values
`Number = 0` and `PromptID = ""` (the claim says this input fails). -/
theorem c2_counterexample :
    PromptArray.UnmarshalJSON (.arr [.str "x", .num 1, .obj []]) =
      .ok { Number := 0, PromptID := "", Workflow := some [],
            ExtraData := none, OutputsToExecute := none,
            rawArray := some [.str "x", .num 1, .obj []] } := by
  rfl

/-- C2 amended: the header decoder fails exactly when the input is not a
JSON array with at least 3 elements (mistyped positions 0/1 are
tolerated, leaving Go zero values, rather than failing); on any array of
length at least 3 with well-typed positions 0 and 1 it succeeds, setting
the order number, job id and graph from positions 0-2 and populating
extra-data / outputs-to-execute only when positions 3 / 4 exist. -/
theorem c2_header_decoder (v : JValue) :
    ((∃ p, PromptArray.UnmarshalJSON v = .ok p) ↔
      ∃ xs, v = .arr xs ∧ 3 ≤ xs.length) ∧
    (∀ xs q s, v = .arr xs → 3 ≤ xs.length →
      xs.getD 0 .null = .num q → xs.getD 1 .null = .str s →
      ∃ p, PromptArray.UnmarshalJSON v = .ok p ∧
        p.Number = q ∧ p.PromptID = s ∧
        p.Workflow = decodeWorkflowValue (xs.getD 2 .null) ∧
        (xs.length ≤ 3 → p.ExtraData = none) ∧
        (∀ l, xs.getD 3 .null = .obj l → 3 < xs.length → p.ExtraData = some l) ∧
        (p.ExtraData.isSome = true → 3 < xs.length) ∧
        (xs.length ≤ 4 → p.OutputsToExecute = none) ∧
        (p.OutputsToExecute.isSome = true → 4 < xs.length)) := by
  constructor
  · constructor
    · rintro ⟨p, hp⟩
      cases v with
      | arr xs =>
          refine ⟨xs, rfl, ?_⟩
          by_contra hlt
          unfold PromptArray.UnmarshalJSON at hp
          simp only [unmarshalToSlice] at hp
          rw [if_pos (by omega)] at hp
          exact absurd hp (by simp)
      | null => exact absurd hp (by simp [PromptArray.UnmarshalJSON, unmarshalToSlice])
      | bool b => exact absurd hp (by simp [PromptArray.UnmarshalJSON, unmarshalToSlice])
      | num q => exact absurd hp (by simp [PromptArray.UnmarshalJSON, unmarshalToSlice])
      | str s => exact absurd hp (by simp [PromptArray.UnmarshalJSON, unmarshalToSlice])
      | obj fields =>
          exact absurd hp (by simp [PromptArray.UnmarshalJSON, unmarshalToSlice])
    · rintro ⟨xs, rfl, h3⟩
      exact ⟨_, unmarshal_ok_of_len xs h3⟩
  · rintro xs q s rfl h3 hq hs
    refine ⟨_, unmarshal_ok_of_len xs h3, ?_, ?_, rfl, ?_, ?_, ?_, ?_, ?_⟩
    · simp only [hq]
    · simp only [hs]
    · intro h34
      simp only [if_neg (by omega : ¬ xs.length > 3)]
    · intro l hl hgt
      simp only [hl, if_pos (by omega : xs.length > 3)]
    · intro hsome
      by_contra hn
      rw [show ((if xs.length > 3 then
            match xs.getD 3 .null with
            | .obj l => some l
            | _ => none
          else none)) = none from if_neg (by omega)] at hsome
      simp at hsome
    · intro h45
      simp only [if_neg (by omega : ¬ xs.length > 4)]
    · intro hsome
      by_contra hn
      rw [show ((if xs.length > 4 then
            match xs.getD 4 .null with
            | .arr outputs =>
                some (outputs.filterMap (fun o =>
                  match o with
                  | .str s => some s
                  | _ => none))
            | _ => none
          else none)) = none from if_neg (by omega)] at hsome
      simp at hsome

/-- C2 witness: a length-4 array with numeric position 0 and string
position 1 decodes successfully with order number 2 and job id "id". -/
theorem c2_header_decoder_witness :
    (PromptArray.UnmarshalJSON
        (.arr [.num 2, .str "id", .obj [], .obj [("k", .num 1)]])).map
      (fun p => (p.Number, p.PromptID)) = .ok (2, "id") := by
  obtain ⟨p, hp, hn, hs, -⟩ :=
    (c2_header_decoder (.arr [.num 2, .str "id", .obj [], .obj [("k", .num 1)]])).2
      [.num 2, .str "id", .obj [], .obj [("k", .num 1)]] 2 "id" rfl
      (by norm_num) rfl rfl
  rw [hp]
  simp [Except.map, hn, hs]

/-! ## C6 — graph encode/decode round-trip -/

/-- One node survives the encode/decode round-trip: the two-field object
produced by `Node.marshal` is taken apart by the sub-decoder into the
original type-name and input map (a nil input map travels as `null`). -/
theorem decodeNode_marshal (id : String) (n : Node) (rest : List (String × JValue)) :
    decodeWorkflowObj ((id, n.marshal) :: rest) =
      (id, n) :: decodeWorkflowObj rest := by
  obtain ⟨ct, inputs⟩ := n
  cases inputs <;>
    simp [decodeWorkflowObj, Node.marshal, mapLookup]

/-- Every workflow survives the encode/decode round-trip at the
object-field level. -/
theorem decodeObj_marshal (w : Workflow) :
    decodeWorkflowObj (w.map (fun p => (p.1, p.2.marshal))) = w := by
  induction w with
  | nil => rfl
  | cons hd tl ih =>
      obtain ⟨id, n⟩ := hd
      rw [List.map_cons, decodeNode_marshal, ih]

/-- C6: for every graph reachable through the builder/model operations,
decoding the JSON encoding through the graph sub-decoder returns the
graph unchanged — type-names and all input values (literals and 2-tuple
edge references alike) are preserved.  (The round-trip in fact holds for
every workflow value; the builder hypothesis mirrors the claim.) -/
theorem c6_graph_roundtrip (G : Workflow) (_built : Built G) :
    decodeWorkflowValue G.marshal = some G := by
  clear _built
  show some (decodeWorkflowObj (G.map (fun p => (p.1, p.2.marshal)))) = some G
  rw [decodeObj_marshal]

/-- C6 witness: a two-node graph built by `AddNode` twice and one
`ConnectNodes` edge (checkpoint feeding a text encoder) round-trips,
edge reference included. -/
theorem c6_graph_roundtrip_witness :
    decodeWorkflowValue
      (Workflow.marshal
        [("1", { ClassType := "CheckpointLoaderSimple",
                 Inputs := some [("ckpt_name", .str "model.safetensors")] }),
         ("2", { ClassType := "CLIPTextEncode",
                 Inputs := some [("text", .str "hello"),
                                 ("clip", .arr [.str "1", .num 1])] })]) =
      some
        [("1", { ClassType := "CheckpointLoaderSimple",
                 Inputs := some [("ckpt_name", .str "model.safetensors")] }),
         ("2", { ClassType := "CLIPTextEncode",
                 Inputs := some [("text", .str "hello"),
                                 ("clip", .arr [.str "1", .num 1])] })] :=
  c6_graph_roundtrip _
    (Built.connectNodes "1" 1 "2" "clip"
      (Built.addNode "2" "CLIPTextEncode" (some [("text", .str "hello")])
        (Built.addNode "1" "CheckpointLoaderSimple"
          (some [("ckpt_name", .str "model.safetensors")]) Built.empty))
      rfl)

/-! ## C1 — queue response decoding -/

/-- Decoding a list whose elements are all arrays back into
`[][]interface \x7b\x7d` succeeds with exactly those arrays. -/
theorem sliceOfSlices_of_arrays (rs : List (List JValue)) :
    unmarshalToSliceOfSlices (.arr (rs.map JValue.arr)) = .ok rs := by
  show unmarshalToSliceOfSlices.goList (rs.map JValue.arr) = .ok rs
  induction rs with
  | nil => rfl
  | cons hd tl ih =>
      rw [List.map_cons]
      simp only [unmarshalToSliceOfSlices.goList, unmarshalToSlice, ih]

/-- The queue-slot loop succeeds on any list of tuples all long enough,
producing the per-tuple field extraction in order. -/
theorem parseQueueItemList_ok (label : String) (rs : List (List JValue))
    (h : ∀ a ∈ rs, 3 ≤ a.length) :
    parseQueueItemList label rs = .ok (rs.map parseQueueItemCore) := by
  induction rs with
  | nil => rfl
  | cons hd tl ih =>
      have hhd : ¬ hd.length < 3 := by
        have := h hd (List.mem_cons_self hd tl)
        omega
      rw [List.map_cons]
      simp only [parseQueueItemList, parseQueueItemArray, if_neg hhd,
        ih (fun a ha => h a (List.mem_cons_of_mem hd ha))]

/-- C1: a queue response whose `queue_running` and `queue_pending` lists
hold well-typed positional 5-tuples decodes successfully into one slot
per tuple in order, and each slot's order number, job id and graph come
from tuple positions 0, 1 and 2 (the graph through the shared
sub-decoder). -/
theorem c1_queue_decode (rs ps : List (List JValue))
    (hr : ∀ a ∈ rs, WellTypedSlotTuple a)
    (hp : ∀ a ∈ ps, WellTypedSlotTuple a) :
    QueueStatus.UnmarshalJSON
        (.obj [("queue_running", .arr (rs.map JValue.arr)),
               ("queue_pending", .arr (ps.map JValue.arr))]) =
      .ok { QueueRunning := rs.map parseQueueItemCore,
            QueuePending := ps.map parseQueueItemCore } ∧
    (∀ a, WellTypedSlotTuple a →
      ∀ q s f, a.getD 0 .null = .num q → a.getD 1 .null = .str s →
        a.getD 2 .null = .obj f →
        (parseQueueItemCore a).Number = truncRat q ∧
        (parseQueueItemCore a).PromptID = s ∧
        (parseQueueItemCore a).Prompt = some (decodeWorkflowObj f)) := by
  constructor
  · have hr3 : ∀ a ∈ rs, 3 ≤ a.length := fun a ha => by
      rw [(hr a ha).1]
      norm_num
    have hp3 : ∀ a ∈ ps, 3 ≤ a.length := fun a ha => by
      rw [(hp a ha).1]
      norm_num
    have e1 : (mapLookup [("queue_running", JValue.arr (rs.map JValue.arr)),
          ("queue_pending", JValue.arr (ps.map JValue.arr))] "queue_running").getD .null
        = JValue.arr (rs.map JValue.arr) := rfl
    have e2 : (mapLookup [("queue_running", JValue.arr (rs.map JValue.arr)),
          ("queue_pending", JValue.arr (ps.map JValue.arr))] "queue_pending").getD .null
        = JValue.arr (ps.map JValue.arr) := rfl
    simp only [QueueStatus.UnmarshalJSON, e1, e2, sliceOfSlices_of_arrays,
      parseQueueItemList_ok "running" rs hr3, parseQueueItemList_ok "pending" ps hp3]
  · rintro a - q s f hq hs hf
    refine ⟨?_, ?_, ?_⟩
    · simp only [parseQueueItemCore, hq]
    · simp only [parseQueueItemCore, hs]
    · simp only [parseQueueItemCore, hf, decodeWorkflowValue]

/-- C1 witness: the scenario response
`\x7b"queue_running":[[1,"abc",\x7b\x7d,\x7b\x7d,[]]],"queue_pending":[]\x7d`
decodes to exactly one running slot with order 1, job id "abc" and an
empty graph. -/
theorem c1_queue_decode_witness :
    QueueStatus.UnmarshalJSON
        (.obj [("queue_running",
                .arr [.arr [.num 1, .str "abc", .obj [], .obj [], .arr []]]),
               ("queue_pending", .arr [])]) =
      .ok { QueueRunning := [{ Number := 1, PromptID := "abc",
                               Prompt := some [], ExtraData := some [],
                               Outputs := some [] }],
            QueuePending := [] } := by
  have h := (c1_queue_decode [[.num 1, .str "abc", .obj [], .obj [], .arr []]] []
    (by
      rintro a ha
      simp only [List.mem_singleton] at ha
      subst ha
      exact ⟨rfl, ⟨1, rfl⟩, ⟨"abc", rfl⟩, ⟨[], rfl⟩, ⟨[], rfl⟩, ⟨[], rfl⟩⟩)
    (by rintro a ha; simp at ha)).1
  exact h.trans (by rfl)

/-! ## C3 — blocking wait and terminal events -/

/-- C3 counterexample: `Client.WaitForCompletion` does not return on an
`execution_error` event for its tracked job id.  Delivered only that
event, the loop keeps waiting until the stream closes; delivered that
event followed by the completion sentinel, it skips the error and
reports success — contradicting the claim that the operation returns
surfacing the execution error. -/
theorem c3_counterexample :
    clientWaitLoop "abc"
        [{ type := "execution_error", data := [("prompt_id", .str "abc")] }] =
      .closed ∧
    clientWaitLoop "abc"
        [{ type := "execution_error", data := [("prompt_id", .str "abc")] },
         { type := "executing",
           data := [("prompt_id", .str "abc"), ("node", .null)] }] =
      .completed := by
  exact ⟨rfl, rfl⟩

/-- C3 amended: on an `execution_error` event for the tracked job id,
`WebSocketClient.WaitForPromptCompletion` returns surfacing the error
payload, while `Client.WaitForCompletion` skips the event and keeps
waiting; both return on the completion sentinel (an `executing` event
whose node is absent, `null`, or the empty string) for the tracked id,
after which `Client.WaitForCompletion` fetches the history record. -/
theorem c3_wait_terminal (promptID : String) (m : WebSocketMessage)
    (rest : List WebSocketMessage)
    (herr : m.type = MessageTypeError)
    (hpid : mapLookup m.data "prompt_id" = some (.str promptID)) :
    (clientWaitLoop promptID (m :: rest) = clientWaitLoop promptID rest ∧
      WaitForPromptCompletion promptID (m :: rest) = .execError m.data) ∧
    (∀ (m' : WebSocketMessage) (rest' : List WebSocketMessage),
      m'.type = MessageTypeExecuting →
      mapLookup m'.data "prompt_id" = some (.str promptID) →
      (mapLookup m'.data "node" = none ∨ mapLookup m'.data "node" = some .null ∨
        mapLookup m'.data "node" = some (.str "")) →
      clientWaitLoop promptID (m' :: rest') = .completed ∧
      WaitForPromptCompletion promptID (m' :: rest') = .completed) := by
  have hnotdone : completesClientWait promptID m = false := by
    unfold completesClientWait
    rw [herr]
    simp [MessageTypeError, MessageTypeExecuting]
  constructor
  · constructor
    · unfold clientWaitLoop
      rw [hnotdone]
      simp only [Bool.false_eq_true, if_false]
      cases rest <;> rfl
    · unfold WaitForPromptCompletion
      rw [hnotdone, herr, hpid]
      simp
  · intro m' rest' hex hpid' hnode
    have hdone : completesClientWait promptID m' = true := by
      unfold completesClientWait
      rw [hex, hpid']
      rcases hnode with h | h | h <;> rw [h] <;> simp [MessageTypeExecuting]
    constructor
    · unfold clientWaitLoop
      rw [hdone]
      simp
    · unfold WaitForPromptCompletion
      rw [hdone]
      simp

/-- C3 witness: at a concrete `execution_error` event for job "abc", the
websocket wait surfaces the payload while the client wait keeps waiting,
and the concrete null-node sentinel completes both. -/
theorem c3_wait_terminal_witness :
    (clientWaitLoop "abc"
        [{ type := "execution_error", data := [("prompt_id", .str "abc")] }] =
      clientWaitLoop "abc" [] ∧
    WaitForPromptCompletion "abc"
        [{ type := "execution_error", data := [("prompt_id", .str "abc")] }] =
      .execError [("prompt_id", .str "abc")]) ∧
    (clientWaitLoop "abc"
        [{ type := "executing",
           data := [("prompt_id", .str "abc"), ("node", .null)] }] = .completed ∧
    WaitForPromptCompletion "abc"
        [{ type := "executing",
           data := [("prompt_id", .str "abc"), ("node", .null)] }] = .completed) := by
  have h := c3_wait_terminal "abc"
    { type := "execution_error", data := [("prompt_id", .str "abc")] } [] rfl rfl
  exact ⟨h.1,
    h.2 { type := "executing", data := [("prompt_id", .str "abc"), ("node", .null)] }
      [] rfl rfl (Or.inr (Or.inl rfl))⟩

/-! ## C4 — events after a terminal state -/

/-- C4 counterexample: the dispatch has no terminal-state guard.  A
tracker for job "abc" reaches the completed state via the null-node
`executing` event, yet a subsequently delivered `progress` event still
overwrites its step counters (current step changes from 0 to 10) — the
claim says every later event is ignored. -/
theorem c4_counterexample :
    (handleProgressMessage
        { type := "executing", data := [("prompt_id", .str "abc"), ("node", .null)] }
        (NewProgressTracker "abc") "abc").IsCompleted = true ∧
    (handleProgressMessage
        { type := "progress", data := [("value", .num 10), ("max", .num 20)] }
        (handleProgressMessage
          { type := "executing", data := [("prompt_id", .str "abc"), ("node", .null)] }
          (NewProgressTracker "abc") "abc") "abc").CurrentStep = 10 ∧
    (handleProgressMessage
        { type := "executing", data := [("prompt_id", .str "abc"), ("node", .null)] }
        (NewProgressTracker "abc") "abc").CurrentStep = 0 := by
  refine ⟨rfl, ?_, rfl⟩
  decide

/-- C4 amended: delivering the same terminal event again is harmless —
re-handling a completion sentinel or an `execution_error` event for the
tracked job id leaves the tracker unchanged (`Complete` and `SetError`
are idempotent) — but the dispatch itself has no terminal-state guard,
so other late events still mutate the progress fields; it is the
surrounding monitor loop that stops consuming events once a terminal
flag is set. -/
theorem c4_terminal_idempotent (t : ProgressTracker) (promptID : String)
    (m : WebSocketMessage)
    (hpid : msgPromptID m = promptID)
    (hterm : (m.type = MessageTypeExecuting ∧ msgNode m = none) ∨
      m.type = MessageTypeError) :
    handleProgressMessage m (handleProgressMessage m t promptID) promptID =
      handleProgressMessage m t promptID := by
  rcases hterm with ⟨hex, hnode⟩ | herr
  · rw [handle_executing_eq m t promptID hex,
      handle_executing_eq m _ promptID hex, hpid, if_pos rfl, if_pos rfl, hnode]
    rfl
  · rw [handle_error_eq m t promptID herr,
      handle_error_eq m _ promptID herr, hpid, if_pos rfl, if_pos rfl]
    rfl

/-- C4 witness: re-delivering the concrete completion sentinel and the
concrete `execution_error` event for job "abc" leaves the respective
trackers unchanged. -/
theorem c4_terminal_idempotent_witness :
    handleProgressMessage
        { type := "executing", data := [("prompt_id", .str "abc"), ("node", .null)] }
        (handleProgressMessage
          { type := "executing", data := [("prompt_id", .str "abc"), ("node", .null)] }
          (NewProgressTracker "abc") "abc") "abc" =
      handleProgressMessage
        { type := "executing", data := [("prompt_id", .str "abc"), ("node", .null)] }
        (NewProgressTracker "abc") "abc" ∧
    handleProgressMessage
        { type := "execution_error",
          data := [("prompt_id", .str "abc"), ("exception_type", .str "E"),
                   ("exception_message", .str "boom")] }
        (handleProgressMessage
          { type := "execution_error",
            data := [("prompt_id", .str "abc"), ("exception_type", .str "E"),
                     ("exception_message", .str "boom")] }
          (NewProgressTracker "abc") "abc") "abc" =
      handleProgressMessage
        { type := "execution_error",
          data := [("prompt_id", .str "abc"), ("exception_type", .str "E"),
                   ("exception_message", .str "boom")] }
        (NewProgressTracker "abc") "abc" :=
  ⟨c4_terminal_idempotent (NewProgressTracker "abc") "abc"
      { type := "executing", data := [("prompt_id", .str "abc"), ("node", .null)] }
      rfl (Or.inl ⟨rfl, rfl⟩),
   c4_terminal_idempotent (NewProgressTracker "abc") "abc"
      { type := "execution_error",
        data := [("prompt_id", .str "abc"), ("exception_type", .str "E"),
                 ("exception_message", .str "boom")] }
      rfl (Or.inr rfl)⟩

/-! ## C5 — node and step tracking under interleaving -/

theorem handle_ignored (promptID : String) (m : WebSocketMessage)
    (h : IgnoredEvent promptID m) (t : ProgressTracker) :
    handleProgressMessage m t promptID = t := by
  obtain ⟨hprog, hpid⟩ := h
  by_cases hex : m.type = MessageTypeExecuting
  · rw [handle_executing_eq m t promptID hex, if_neg hpid]
  · by_cases hed : m.type = MessageTypeExecuted
    · rw [handle_executed_eq m t promptID hed, if_neg hpid]
    · by_cases herr : m.type = MessageTypeError
      · rw [handle_error_eq m t promptID herr, if_neg hpid]
      · exact handle_unknown_eq m t promptID hprog hex hed herr

theorem runTracker_append (promptID : String) (t : ProgressTracker)
    (l1 l2 : List WebSocketMessage) :
    runTracker promptID t (l1 ++ l2) =
      runTracker promptID (runTracker promptID t l1) l2 := by
  unfold runTracker
  rw [List.foldl_append]

theorem runTracker_singleton (promptID : String) (t : ProgressTracker)
    (m : WebSocketMessage) :
    runTracker promptID t [m] = handleProgressMessage m t promptID := rfl

theorem runTracker_ignored (promptID : String) (t : ProgressTracker)
    (L : List WebSocketMessage) (h : ∀ e ∈ L, IgnoredEvent promptID e) :
    runTracker promptID t L = t := by
  induction L generalizing t with
  | nil => rfl
  | cons hd tl ih =>
      show runTracker promptID (handleProgressMessage hd t promptID) tl = t
      rw [handle_ignored promptID hd (h hd (List.mem_cons_self hd tl)) t]
      exact ih t (fun e he => h e (List.mem_cons_of_mem hd he))

/-- C5 counterexample: the `progress` branch of the dispatch never
checks the event's job id.  For tracked job "a", the sequence
executing(a, X) / progress(a, 5, 10) / executing(a, Y) followed by a
`progress` event carrying job id "b" ends with step counters (30, 40),
not the last values (5, 10) seen for job "a" — so an event carrying
another job id did change this tracker's state. -/
theorem c5_counterexample :
    (runTracker "a" (NewProgressTracker "a")
        [execMsg "a" "X", progressMsg "a" 5 10, execMsg "a" "Y",
         progressMsg "b" 30 40]).CurrentNode = "Y" ∧
    (runTracker "a" (NewProgressTracker "a")
        [execMsg "a" "X", progressMsg "a" 5 10, execMsg "a" "Y",
         progressMsg "b" 30 40]).CurrentStep = 30 ∧
    (runTracker "a" (NewProgressTracker "a")
        [execMsg "a" "X", progressMsg "a" 5 10, execMsg "a" "Y",
         progressMsg "b" 30 40]).TotalSteps = 40 ∧
    ¬ ((runTracker "a" (NewProgressTracker "a")
        [execMsg "a" "X", progressMsg "a" 5 10, execMsg "a" "Y",
         progressMsg "b" 30 40]).CurrentStep = 5 ∧
       (runTracker "a" (NewProgressTracker "a")
        [execMsg "a" "X", progressMsg "a" 5 10, execMsg "a" "Y",
         progressMsg "b" 30 40]).TotalSteps = 10) := by
  decide

/-- C5 amended: after executing(node=X), progress(v, max), executing
(node=Y) for the tracked job id — interleaved with events that are
neither `progress` events nor carry the tracked job id — the tracker's
node is Y and its step counters are the last progress values; but a
`progress` event is applied to the tracker whatever job id it carries,
so only non-progress events for other job ids are guaranteed to leave
the state unchanged. -/
theorem c5_node_and_steps (promptID X Y : String) (v maxv : ℚ)
    (t : ProgressTracker) (L0 L1 L2 L3 : List WebSocketMessage)
    (h0 : ∀ e ∈ L0, IgnoredEvent promptID e)
    (h1 : ∀ e ∈ L1, IgnoredEvent promptID e)
    (h2 : ∀ e ∈ L2, IgnoredEvent promptID e)
    (h3 : ∀ e ∈ L3, IgnoredEvent promptID e) :
    runTracker promptID t
        (L0 ++ [execMsg promptID X] ++ L1 ++ [progressMsg promptID v maxv] ++
          L2 ++ [execMsg promptID Y] ++ L3) =
      { t with CurrentNode := Y, CurrentStep := truncRat v,
               TotalSteps := truncRat maxv } ∧
    (∀ (pid' : String) (t' : ProgressTracker),
      handleProgressMessage (progressMsg pid' v maxv) t' promptID =
        t'.Update (truncRat v) (truncRat maxv) t'.CurrentNode) ∧
    (∀ (e : WebSocketMessage) (t' : ProgressTracker), IgnoredEvent promptID e →
      handleProgressMessage e t' promptID = t') := by
  have hexecX : ∀ (node : String) (t' : ProgressTracker),
      handleProgressMessage (execMsg promptID node) t' promptID =
        { t' with CurrentNode := node } := by
    intro node t'
    rw [handle_executing_eq _ _ _ rfl,
      show msgPromptID (execMsg promptID node) = promptID from rfl, if_pos rfl,
      show msgNode (execMsg promptID node) = some node from rfl]
  have hprog : ∀ (pid' : String) (t' : ProgressTracker),
      handleProgressMessage (progressMsg pid' v maxv) t' promptID =
        t'.Update (truncRat v) (truncRat maxv) t'.CurrentNode := by
    intro pid' t'
    rw [handle_progress_eq _ _ _ rfl,
      show msgValue (progressMsg pid' v maxv) = truncRat v from rfl,
      show msgMax (progressMsg pid' v maxv) = truncRat maxv from rfl]
  refine ⟨?_, hprog, fun e t' he => handle_ignored promptID e he t'⟩
  rw [runTracker_append, runTracker_append, runTracker_append, runTracker_append,
    runTracker_append, runTracker_append]
  rw [runTracker_ignored promptID t L0 h0]
  rw [runTracker_singleton promptID t (execMsg promptID X)]
  rw [hexecX X t]
  rw [runTracker_ignored promptID _ L1 h1]
  rw [runTracker_singleton promptID _ (progressMsg promptID v maxv)]
  rw [hprog promptID _]
  rw [runTracker_ignored promptID _ L2 h2]
  rw [runTracker_singleton promptID _ (execMsg promptID Y)]
  rw [hexecX Y _]
  rw [runTracker_ignored promptID _ L3 h3]
  rfl

/-- C5 witness: for tracked job "a", the concrete sequence
executing(a, X) / executed(b) / progress(a, 5, 10) / executing(a, Y)
ends with node Y and step counters (5, 10); the interleaved `executed`
event for job "b" had no effect. -/
theorem c5_node_and_steps_witness :
    (runTracker "a" (NewProgressTracker "a")
        ([] ++ [execMsg "a" "X"] ++
          [{ type := "executed", data := [("prompt_id", .str "b")] }] ++
          [progressMsg "a" 5 10] ++ [] ++ [execMsg "a" "Y"] ++ [])).CurrentNode =
      "Y" ∧
    (runTracker "a" (NewProgressTracker "a")
        ([] ++ [execMsg "a" "X"] ++
          [{ type := "executed", data := [("prompt_id", .str "b")] }] ++
          [progressMsg "a" 5 10] ++ [] ++ [execMsg "a" "Y"] ++ [])).CurrentStep =
      5 ∧
    (runTracker "a" (NewProgressTracker "a")
        ([] ++ [execMsg "a" "X"] ++
          [{ type := "executed", data := [("prompt_id", .str "b")] }] ++
          [progressMsg "a" 5 10] ++ [] ++ [execMsg "a" "Y"] ++ [])).TotalSteps =
      10 := by
  have h := (c5_node_and_steps "a" "X" "Y" 5 10 (NewProgressTracker "a")
    [] [{ type := "executed", data := [("prompt_id", .str "b")] }] [] []
    (by decide) (by decide) (by decide) (by decide)).1
  rw [h]
  refine ⟨rfl, ?_, ?_⟩ <;> decide

end ComfyUI
